import Mathlib

/-!
Shallow embedding of MarkdownLivePreview's image-resolution pipeline
(`markdown2html.py`): the image size sniffer (`get_image_size`), the
fetch cache and async fetcher (`get_base64_image`, `load_image` and the
completion `callback`), and the image rewriting loop of `markdown2html`.

Bytes are modelled as `Nat` (each < 256 where it matters), byte streams as
`List Nat`.  Python exceptions are modelled as explicit error values; the
JPEG marker-scanning `while` loop, which need not terminate on adversarial
inputs, takes a fuel parameter and returns `none` on fuel exhaustion.
-/

namespace MLP

/-- A resolved image as built by the pipeline: the Python pair
`(base64_data, (width, height))`. -/
structure Img where
  data : String
  width : Int
  height : Int
  deriving Repr, DecidableEq

/-- The `resources` dict: the two placeholder images parsed from the bundled
`404.base64` / `loading.base64` files, plus the stylesheet text. -/
structure Resources where
  base64_404_image : Img
  base64_loading_image : Img
  stylesheet : String

/-- The module-level mutable state of `markdown2html.py`:
`images_cache` (a dict, modelled as an association list where insertion
shadows) and `images_loading` (a list of keys with in-flight fetches). -/
structure FetchState where
  images_cache : List (String × Img)
  images_loading : List String
  deriving Repr, DecidableEq

/-- Dict lookup `path in images_cache` / `images_cache[path]`. -/
def cacheGet (st : FetchState) (path : String) : Option Img :=
  st.images_cache.lookup path

/-- Dict assignment `images_cache[path] = img` (new binding shadows any
older one, matching dict-update lookup semantics). -/
def cachePut (st : FetchState) (path : String) (img : Img) : FetchState :=
  { st with images_cache := (path, img) :: st.images_cache }

/-! ### Byte-stream primitives (`io.BytesIO` reads and `struct` unpacks) -/

/-- `fhandle.read(1)` at position `pos`: the byte and the new position, or
`none` when the stream is exhausted (Python returns `b""`). -/
def read1 (data : List Nat) (pos : Nat) : Option (Nat × Nat) :=
  match data.get? pos with
  | some b => some (b, pos + 1)
  | none => none

/-- `fhandle.read(2)` unpacked as `>H` (big-endian unsigned 16-bit); `none`
when fewer than 2 bytes remain (`struct.error`). -/
def read2be (data : List Nat) (pos : Nat) : Option (Nat × Nat) :=
  match data.get? pos, data.get? (pos + 1) with
  | some b0, some b1 => some (b0 * 256 + b1, pos + 2)
  | _, _ => none

/-- `fhandle.read(4)` unpacked as `>HH` (two big-endian unsigned 16-bit
values); `none` when fewer than 4 bytes remain (`struct.error`). -/
def read4be2 (data : List Nat) (pos : Nat) : Option (Nat × Nat × Nat) :=
  match data.get? pos, data.get? (pos + 1), data.get? (pos + 2), data.get? (pos + 3) with
  | some b0, some b1, some b2, some b3 => some (b0 * 256 + b1, b2 * 256 + b3, pos + 4)
  | _, _, _, _ => none

/-- Big-endian unsigned 32-bit value of four bytes. -/
def be32 (b0 b1 b2 b3 : Nat) : Nat :=
  ((b0 * 256 + b1) * 256 + b2) * 256 + b3

/-- `struct.unpack(">i", ...)`: big-endian *signed* 32-bit value of four
bytes (two's complement). -/
def be32s (b0 b1 b2 b3 : Nat) : Int :=
  if b0 < 128 then (be32 b0 b1 b2 b3 : Int) else (be32 b0 b1 b2 b3 : Int) - 4294967296

/-- `struct.unpack("<HH", ...)`: little-endian unsigned 16-bit value. -/
def le16 (b0 b1 : Nat) : Nat := b1 * 256 + b0

/-! ### `get_image_size` -/

/-- Failure mode of the JPEG marker scan, as the Python exception the code
raises there (the spec's `MalformedJpeg` taxonomy entry covers all three):
* `nameErr`: `fhandle.read(1)` returned `b""` at the marker-read point, so
  the line `fhandle = end` raises `NameError` (`end` is undefined);
* `typeErr`: `ord(b"")` inside the `0xFF`-fill-skipping loop (`TypeError`);
* `structErr`: `struct.unpack` on a short read (`struct.error`);
* `valueErr`: `fhandle.seek` to a negative absolute position (`ValueError`,
  possible because a declared segment length below 2 makes `size`
  negative). -/
inductive JpegErr where
  | nameErr
  | typeErr
  | structErr
  | valueErr
  deriving Repr, DecidableEq

/-- `fhandle.seek(off, 1)`: relative seek; Python raises `ValueError` when
the resulting position is negative. -/
def seekRel (pos : Nat) (off : Int) : Option Nat :=
  if (pos : Int) + off < 0 then none else some ((pos : Int) + off).toNat

/-- The inner `while ord(byte) == 0xFF: byte = fhandle.read(1)` loop:
skips fill bytes, returning the first non-`0xFF` byte and the position
just past it; `none` when the stream ends mid-skip (`ord(b"")` raises
`TypeError`).  `rem` is the unread suffix of the stream, `data.drop pos`;
structural recursion on it keeps the model kernel-executable. -/
def skipFF : Nat → Nat → List Nat → Option (Nat × Nat)
  | b, pos, [] => if b = 0xFF then none else some (b, pos)
  | b, pos, b2 :: rest =>
    if b = 0xFF then skipFF b2 (pos + 1) rest else some (b, pos)

/-- One-or-more iterations of the JPEG `while not 0xC0 <= ftype <= 0xCF`
marker-segment loop, followed by the post-loop reads.  On entry: seek
forward by `size`, read the marker byte (EOF here is the `fhandle = end`
`NameError`), skip `0xFF` fill bytes, read the 16-bit segment length.
If the marker is a Start-Of-Frame (`0xC0`–`0xCF`) the loop exits: skip one
precision byte and read big-endian 16-bit height then width, returning
`(width, height)` as the function does.  Otherwise iterate with
`size := length - 2`.  `none` = fuel ran out (the Python loop diverges or
we under-estimated the fuel). -/
def jpegLoop (data : List Nat) : Nat → Nat → Int → Option (Except JpegErr (Int × Int))
  | 0, _, _ => none
  | fuel + 1, pos, size =>
    match seekRel pos size with
    | none => some (.error .valueErr)
    | some p1 =>
      match read1 data p1 with
      | none => some (.error .nameErr)
      | some (b, p2) =>
        match skipFF b p2 (data.drop p2) with
        | none => some (.error .typeErr)
        | some (ftype, p3) =>
          match read2be data p3 with
          | none => some (.error .structErr)
          | some (len, p4) =>
            if 0xC0 ≤ ftype ∧ ftype ≤ 0xCF then
              match read4be2 data (p4 + 1) with
              | none => some (.error .structErr)
              | some (height, width, _) => some (.ok ((width : Int), (height : Int)))
            else
              jpegLoop data fuel p4 ((len : Int) - 2)

/-- What `get_image_size` hands back to its caller: a `(width, height)`
tuple, a string (`"invalid head"`, `"unknown format ..."`), `None` (the PNG
bad-magic path), or a raised exception (the JPEG scan re-raises). -/
inductive SniffResult where
  | dims (width height : Int)
  | strRes (s : String)
  | noneRes
  | raised (e : JpegErr)
  deriving Repr, DecidableEq

/-- Body of `get_image_size` after the format hint has been extracted from
`pathlike`.  Reads 24 header bytes (returning `"invalid head"` when fewer
are available), then dispatches on the hint exactly as the source does.
`none` only when the JPEG scan exhausts its fuel. -/
def getImageSizeFmt (fmt : String) (fuel : Nat) (data : List Nat) : Option SniffResult :=
  if data.length < 24 then some (.strRes "invalid head")
  else if fmt = "png" then
    match data.get? 4, data.get? 5, data.get? 6, data.get? 7 with
    | some b4, some b5, some b6, some b7 =>
      if be32s b4 b5 b6 b7 ≠ 0x0D0A1A0A then some .noneRes
      else
        match data.get? 16, data.get? 17, data.get? 18, data.get? 19,
              data.get? 20, data.get? 21, data.get? 22, data.get? 23 with
        | some c0, some c1, some c2, some c3, some d0, some d1, some d2, some d3 =>
          some (.dims (be32s c0 c1 c2 c3) (be32s d0 d1 d2 d3))
        | _, _, _, _, _, _, _, _ => some .noneRes
    | _, _, _, _ => some .noneRes
  else if fmt = "gif" then
    match data.get? 6, data.get? 7, data.get? 8, data.get? 9 with
    | some b6, some b7, some b8, some b9 =>
      some (.dims (le16 b6 b7 : Int) (le16 b8 b9 : Int))
    | _, _, _, _ => some .noneRes
  else if fmt = "jpeg" then
    match jpegLoop data fuel 0 2 with
    | none => none
    | some (.ok (w, h)) => some (.dims w h)
    | some (.error e) => some (.raised e)
  else
    some (.strRes ("unknown format '" ++ fmt ++ "'"))

/-- Split a character list on a separator character, like Python's
`str.split(sep)` for a one-character separator. -/
def splitOnChar (c : Char) : List Char → List (List Char)
  | [] => [[]]
  | x :: xs =>
    let r := splitOnChar c xs
    if x = c then [] :: r
    else
      match r with
      | [] => [[x]]
      | g :: gs => (x :: g) :: gs

/-- `os.path.splitext(os.path.basename(pathlike))[1][1:]`: the extension of
the final path component, without its dot; empty when the basename has no
extension (a leading-dot-only name like `.bashrc` has none). -/
def extOf (p : String) : String :=
  let base := (splitOnChar '/' p.data).getLastD []
  let parts := splitOnChar '.' base
  match parts with
  | [] => ""
  | [_] => ""
  | ps => if ps.dropLast.all (· = []) then "" else String.mk (ps.getLastD [])

/-- `get_image_size(fhandle, pathlike)` with `fhandle` positioned at the
start of `data`. -/
def get_image_size (fuel : Nat) (data : List Nat) (pathlike : String) : Option SniffResult :=
  getImageSizeFmt (extOf pathlike) fuel data

/-! ### `base64.b64encode` (Python standard library, RFC 4648) -/

/-- The base64 alphabet character for a 6-bit value. -/
def b64char (n : Nat) : Char :=
  if n < 26 then Char.ofNat (65 + n)
  else if n < 52 then Char.ofNat (97 + (n - 26))
  else if n < 62 then Char.ofNat (48 + (n - 52))
  else if n = 62 then '+'
  else '/'

/-- `base64.b64encode(bytes).decode("utf-8")`: groups of three bytes become
four alphabet characters, with `=` padding for a short final group. -/
def b64encode : List Nat → String
  | [] => ""
  | [a] =>
    String.mk [b64char (a / 4), b64char (a % 4 * 16), '=', '=']
  | [a, b] =>
    String.mk [b64char (a / 4), b64char (a % 4 * 16 + b / 16), b64char (b % 16 * 4), '=']
  | a :: b :: c :: rest =>
    String.mk [b64char (a / 4), b64char (a % 4 * 16 + b / 16),
               b64char (b % 16 * 4 + c / 64), b64char (c % 64)] ++ b64encode rest

/-- The fixed data-URI prefix both image builders prepend. -/
def pngPrefix : String := "data:image/png;base64,"

/-! ### `load_image` (the fetch task) -/

/-- Does `needle` occur as a contiguous run inside `hay`? -/
def hasSubstr : List Char → List Char → Bool
  | [], needle => needle.isPrefixOf []
  | x :: t, needle => if needle.isPrefixOf (x :: t) then true else hasSubstr t needle

/-- Substring membership, Python's `needle in haystack` on strings. -/
def strContains (haystack needle : String) : Bool :=
  hasSubstr haystack.data needle.data

/-- Modelled network: what `urllib.request.urlopen(url, timeout=60)` plus
`conn.read()` / `conn.info().get_content_type()` yield for a URL.  `httpErr`
is an HTTP error status (`urllib.error.HTTPError`), `urlErr` a connection
failure (`urllib.error.URLError`), `timeout` the 60-second timeout firing. -/
inductive NetResult where
  | httpErr
  | urlErr
  | timeout
  | ok (body : List Nat) (contentType : String)

/-- The exception (or absence thereof) a fetch future completes with.
`valueErr` covers both the explicit `raise ValueError` for a non-image
content type and the `ValueError` from unpacking a string returned by
`get_image_size` (both its string results, `"invalid head"` of length 12
and `"unknown format '...'"` of length ≥ 17, fail tuple unpacking into
two variables); `typeErr` is unpacking `None` (PNG bad magic). -/
inductive FetchErr where
  | httpError
  | urlError
  | timeoutErr
  | valueErr
  | typeErr
  | sniffRaised (e : JpegErr)
  deriving Repr, DecidableEq

/-- `load_image(url)`: GET the URL, sniff the body's dimensions, check the
content type contains `"image"`, and build the data-URI image.  Note the
source sniffs *before* the content-type check, and the check is a substring
test, not a prefix test.  `none` = the JPEG sniff exhausted its fuel. -/
def load_image (net : String → NetResult) (fuel : Nat) (url : String) :
    Option (Except FetchErr Img) :=
  match net url with
  | .httpErr => some (.error .httpError)
  | .urlErr => some (.error .urlError)
  | .timeout => some (.error .timeoutErr)
  | .ok body contentType =>
    match get_image_size fuel body url with
    | none => none
    | some (.strRes _) => some (.error .valueErr)
    | some .noneRes => some (.error .typeErr)
    | some (.raised e) => some (.error (.sniffRaised e))
    | some (.dims w h) =>
      if ¬ strContains contentType "image" then some (.error .valueErr)
      else some (.ok ⟨pngPrefix ++ b64encode body, w, h⟩)

/-! ### The completion `callback` -/

/-- Outcome of running the done-callback for a completed fetch future:
the module state afterwards, how many times `re_render()` was invoked, and
whether the callback itself raised (an exception escaping a
`add_done_callback` callback is logged by the executor and otherwise
ignored — the remaining statements of the callback do not run). -/
structure CbOutcome where
  st : FetchState
  rerenders : Nat
  crashed : Bool
  deriving Repr, DecidableEq

/-- The nested `callback(path, resources, future)` of `get_base64_image`.
`try: images_cache[path] = future.result() / except HTTPError: cache the
404 placeholder` — any other exception from the future propagates out of
the callback before `images_loading.remove` and `re_render()` run.
`list.remove` itself raises `ValueError` when `path` is absent. -/
def callback (resources : Resources) (path : String) (res : Except FetchErr Img)
    (st : FetchState) : CbOutcome :=
  match res with
  | .ok img =>
    let st1 := cachePut st path img
    if path ∈ st1.images_loading then
      ⟨{ st1 with images_loading := st1.images_loading.erase path }, 1, false⟩
    else ⟨st1, 0, true⟩
  | .error .httpError =>
    let st1 := cachePut st path resources.base64_404_image
    if path ∈ st1.images_loading then
      ⟨{ st1 with images_loading := st1.images_loading.erase path }, 1, false⟩
    else ⟨st1, 0, true⟩
  | .error _ => ⟨st, 0, true⟩

/-! ### `get_base64_image` (resolve) -/

/-- The exception `get_base64_image` can raise for a local image:
`ioErr` — `open(path, "rb")` failed (missing/unreadable file);
`valueErr`/`typeErr` — unpacking a string/`None` sniff result;
`sniffErr` — the JPEG scan raised. -/
inductive LocalErr where
  | ioErr
  | valueErr
  | typeErr
  | sniffErr (e : JpegErr)
  deriving Repr, DecidableEq

/-- Python's `s.startswith(pre)`, as a structural character-list prefix
test. -/
def pyStartsWith (s pre : String) : Bool :=
  pre.data.isPrefixOf s.data

/-- `path.startswith("http://") or path.startswith("https://")`. -/
def isRemote (path : String) : Bool :=
  pyStartsWith path "http://" || pyStartsWith path "https://"

/-- Result of one synchronous `get_base64_image` call: the returned image,
the module state on return, and whether a fetch task was submitted to the
executor during the call. -/
structure ResolveOk where
  img : Img
  st : FetchState
  submitted : Bool
  deriving Repr, DecidableEq

/-- `get_base64_image(path, re_render, resources)`, local file system
modelled as `fs : String → Option (List Nat)` (`none` = `open` raises).
Order is the source's: cache hit first; then the remote branch (submit a
fetch and append to `images_loading` unless already loading, return the
loading placeholder); then the local branch (read, sniff, inline-encode,
cache, return).  `none` = the JPEG sniff of a local file exhausted its
fuel; `.error` = the call raises. -/
def get_base64_image (fs : String → Option (List Nat)) (fuel : Nat) (path : String)
    (resources : Resources) (st : FetchState) : Option (Except LocalErr ResolveOk) :=
  match cacheGet st path with
  | some img => some (.ok ⟨img, st, false⟩)
  | none =>
    if isRemote path then
      if path ∈ st.images_loading then
        some (.ok ⟨resources.base64_loading_image, st, false⟩)
      else
        some (.ok ⟨resources.base64_loading_image,
                   { st with images_loading := st.images_loading ++ [path] }, true⟩)
    else
      match fs path with
      | none => some (.error .ioErr)
      | some content =>
        match get_image_size fuel content path with
        | none => none
        | some (.strRes _) => some (.error .valueErr)
        | some .noneRes => some (.error .typeErr)
        | some (.raised e) => some (.error (.sniffErr e))
        | some (.dims w h) =>
          let img : Img := ⟨pngPrefix ++ b64encode content, w, h⟩
          some (.ok ⟨img, cachePut st path img, false⟩)

/-! ### The image-rewriting loop of `markdown2html` -/

/-- An `<img>` element after the loop body ran on it: the rewritten `src`
and the explicit `width`/`height` attributes, set only for oversized
images.  The dimensions are rationals: Python computes the height as a
float via `viewport_width * (height / width)`. -/
structure ImgOut where
  src : String
  widthAttr : Option ℚ
  heightAttr : Option ℚ
  deriving Repr, DecidableEq

/-- Lines 45–47 of `markdown2html.py`: when the image is wider than the
viewport, set `width` to the viewport width and `height` to
`viewport_width * (height / width)`; otherwise leave both unset. -/
def rescale (vw : ℚ) (w h : Int) : Option (ℚ × ℚ) :=
  if (w : ℚ) > vw then some (vw, vw * ((h : ℚ) / (w : ℚ))) else none

/-- Lines 35–40 of `markdown2html.py`: classify an `<img src>` into a cache
key.  `canon` models `os.path.realpath(os.path.expanduser(os.path.join
(basepath, src)))`, an opaque OS path canonicalisation. -/
def classifySrc (canon : String → String → String) (basepath src : String) : String :=
  if isRemote src then src
  else if pyStartsWith src "file://" then String.mk (src.data.drop 7)
  else canon basepath src

/-- The loop body of `markdown2html` for one `<img>` element: skip sources
already inline (`data:image/` prefix), otherwise classify, resolve through
`get_base64_image`, substitute the returned data and apply the oversize
rescaling.  An exception from `get_base64_image` propagates. -/
def processImg (canon : String → String → String) (fs : String → Option (List Nat))
    (fuel : Nat) (resources : Resources) (vw : ℚ) (basepath : String)
    (st : FetchState) (src : String) :
    Option (Except LocalErr (ImgOut × FetchState × Bool)) :=
  if pyStartsWith src "data:image/" then some (.ok (⟨src, none, none⟩, st, false))
  else
    match get_base64_image fs fuel (classifySrc canon basepath src) resources st with
    | none => none
    | some (.error e) => some (.error e)
    | some (.ok r) =>
      match rescale vw r.img.width r.img.height with
      | some (wa, ha) => some (.ok (⟨r.img.data, some wa, some ha⟩, r.st, r.submitted))
      | none => some (.ok (⟨r.img.data, none, none⟩, r.st, r.submitted))

/-- `for img_element in soup.find_all("img")`: the loop over every image of
the document, threading the module state.  The first exception aborts the
whole call — no HTML is returned for any part of the document. -/
def processImgs (canon : String → String → String) (fs : String → Option (List Nat))
    (fuel : Nat) (resources : Resources) (vw : ℚ) (basepath : String)
    (st : FetchState) : List String → Option (Except LocalErr (List ImgOut × FetchState))
  | [] => some (.ok ([], st))
  | src :: rest =>
    match processImg canon fs fuel resources vw basepath st src with
    | none => none
    | some (.error e) => some (.error e)
    | some (.ok (out, st', _)) =>
      match processImgs canon fs fuel resources vw basepath st' rest with
      | none => none
      | some (.error e) => some (.error e)
      | some (.ok (outs, st'')) => some (.ok (out :: outs, st''))

/-- `markdown2html(markdown, basepath, re_render, resources,
viewport_width)`: the Markdown converter is the opaque pure function
`convert`, abstracted to the list of `<img src>` values of the produced
document (the only part the image pipeline touches).  The comment
stripping, `<pre>` fixups and final stylesheet concatenation are
string cosmetics on the other nodes and are not modelled: the result is
the list of rewritten image elements plus the final module state, and the
call produces its HTML string exactly when this returns `.ok`. -/
def markdown2html (convert : String → List String) (canon : String → String → String)
    (fs : String → Option (List Nat)) (fuel : Nat) (resources : Resources) (vw : ℚ)
    (basepath : String) (st : FetchState) (markdown : String) :
    Option (Except LocalErr (List ImgOut × FetchState)) :=
  processImgs canon fs fuel resources vw basepath st (convert markdown)

/-- A 24-byte GIF89a header advertising a 100×50 canvas (little-endian
16-bit dimensions at offsets 6 and 8), used as a concrete fixture. -/
def gifBytes : List Nat :=
  [0x47, 0x49, 0x46, 0x38, 0x39, 0x61, 100, 0, 50, 0,
   0, 0, 0, 0, 0, 0, 0, 0, 0, 0, 0, 0, 0, 0]

/-! ## Helper lemmas -/

lemma read1_spec {data : List Nat} {pos b p' : Nat} (h : read1 data pos = some (b, p')) :
    data.get? pos = some b ∧ p' = pos + 1 := by
  unfold read1 at h
  cases h0 : data.get? pos with
  | none => rw [h0] at h; exact absurd h (by simp)
  | some v =>
    rw [h0] at h
    simp only [Option.some.injEq, Prod.mk.injEq] at h
    obtain ⟨rfl, rfl⟩ := h
    exact ⟨rfl, rfl⟩

lemma read2be_spec {data : List Nat} {pos v p' : Nat} (h : read2be data pos = some (v, p')) :
    p' = pos + 2 := by
  unfold read2be at h
  cases h0 : data.get? pos with
  | none => rw [h0] at h; exact absurd h (by simp)
  | some b0 =>
    cases h1 : data.get? (pos + 1) with
    | none => rw [h0, h1] at h; exact absurd h (by simp)
    | some b1 => rw [h0, h1] at h; simp only [Option.some.injEq, Prod.mk.injEq] at h
                 exact h.2.symm

lemma read4be2_spec {data : List Nat} {pos a b p' : Nat}
    (h : read4be2 data pos = some (a, b, p')) :
    ∃ c0 c1 c2 c3, data.get? pos = some c0 ∧ data.get? (pos + 1) = some c1 ∧
      data.get? (pos + 2) = some c2 ∧ data.get? (pos + 3) = some c3 ∧
      a = c0 * 256 + c1 ∧ b = c2 * 256 + c3 := by
  unfold read4be2 at h
  cases h0 : data.get? pos with
  | none => rw [h0] at h; exact absurd h (by simp)
  | some c0 =>
  cases h1 : data.get? (pos + 1) with
  | none => rw [h0, h1] at h; exact absurd h (by simp)
  | some c1 =>
  cases h2 : data.get? (pos + 2) with
  | none => rw [h0, h1, h2] at h; exact absurd h (by simp)
  | some c2 =>
  cases h3 : data.get? (pos + 3) with
  | none => rw [h0, h1, h2, h3] at h; exact absurd h (by simp)
  | some c3 =>
    rw [h0, h1, h2, h3] at h
    simp only [Option.some.injEq, Prod.mk.injEq] at h
    exact ⟨c0, c1, c2, c3, rfl, rfl, rfl, rfl, h.1.symm, h.2.1.symm⟩

/-- A successful `skipFF` run ends on a byte of the stream: the returned
`ftype` sits at position `p3 - 1` of `data`, provided the incoming byte sat
at `pos - 1` (which `read1` guarantees). -/
lemma skipFF_spec {data : List Nat} :
    ∀ (rem : List Nat) (b pos ftype p3 : Nat), rem = data.drop pos →
      data.get? (pos - 1) = some b → 1 ≤ pos →
      skipFF b pos rem = some (ftype, p3) →
      data.get? (p3 - 1) = some ftype ∧ 1 ≤ p3 := by
  intro rem
  induction rem with
  | nil =>
    intro b pos ftype p3 _ hb hpos h
    by_cases hbf : b = 0xFF
    · simp [skipFF, hbf] at h
    · simp only [skipFF, if_neg hbf, Option.some.injEq, Prod.mk.injEq] at h
      obtain ⟨rfl, rfl⟩ := h
      exact ⟨hb, hpos⟩
  | cons b2 rest ih =>
    intro b pos ftype p3 hrem hb hpos h
    by_cases hbf : b = 0xFF
    · simp only [skipFF, if_pos hbf] at h
      have hget : data.get? pos = some b2 := by
        have := congrArg (fun l => List.get? l 0) hrem
        simpa [List.get?_drop] using this.symm
      have hrest : rest = data.drop (pos + 1) := by
        have := congrArg (List.drop 1) hrem
        simpa [List.drop_drop, Nat.add_comm] using this
      exact ih b2 (pos + 1) ftype p3 hrest (by simpa using hget) (by omega) h
    · simp only [skipFF, if_neg hbf, Option.some.injEq, Prod.mk.injEq] at h
      obtain ⟨rfl, rfl⟩ := h
      exact ⟨hb, hpos⟩

/-- Any terminating JPEG marker scan either raises (every error constructor
corresponds to a read that hit end-of-stream, or a negative seek) or
returns `(width, height)` having genuinely found a Start-Of-Frame marker
byte `ft ∈ [0xC0, 0xCF]` at some position `p`, with height the big-endian
16-bit value at `p + 4` and width the one at `p + 6` (the byte at `p + 3`,
the precision byte, is skipped). -/
lemma jpegLoop_cases {data : List Nat} :
    ∀ (fuel pos : Nat) (size : Int) (r : Except JpegErr (Int × Int)),
      jpegLoop data fuel pos size = some r →
      (∃ e, r = .error e) ∨
      (∃ p ft c4 c5 c6 c7, data.get? p = some ft ∧ 0xC0 ≤ ft ∧ ft ≤ 0xCF ∧
        data.get? (p + 4) = some c4 ∧ data.get? (p + 5) = some c5 ∧
        data.get? (p + 6) = some c6 ∧ data.get? (p + 7) = some c7 ∧
        r = .ok ((c6 * 256 + c7 : Nat), (c4 * 256 + c5 : Nat))) := by
  intro fuel
  induction fuel with
  | zero => intro pos size r h; simp [jpegLoop] at h
  | succ n ih =>
    intro pos size r h
    rw [jpegLoop] at h
    cases hseek : seekRel pos size with
    | none => simp only [hseek] at h; injection h with h; exact .inl ⟨_, h.symm⟩
    | some p1 =>
    simp only [hseek] at h
    cases hrd1 : read1 data p1 with
    | none => simp only [hrd1] at h; injection h with h; exact .inl ⟨_, h.symm⟩
    | some bp =>
    obtain ⟨b, p2⟩ := bp
    simp only [hrd1] at h
    cases hskip : skipFF b p2 (data.drop p2) with
    | none => simp only [hskip] at h; injection h with h; exact .inl ⟨_, h.symm⟩
    | some fp =>
    obtain ⟨ftype, p3⟩ := fp
    simp only [hskip] at h
    cases hrd2 : read2be data p3 with
    | none => simp only [hrd2] at h; injection h with h; exact .inl ⟨_, h.symm⟩
    | some lp =>
    obtain ⟨len, p4⟩ := lp
    simp only [hrd2] at h
    by_cases hsof : 0xC0 ≤ ftype ∧ ftype ≤ 0xCF
    · rw [if_pos hsof] at h
      cases hrd4 : read4be2 data (p4 + 1) with
      | none => simp only [hrd4] at h; injection h with h; exact .inl ⟨_, h.symm⟩
      | some hw =>
        obtain ⟨height, width, p5⟩ := hw
        simp only [hrd4] at h
        simp only [Option.some.injEq] at h
        obtain ⟨hb1, hp2⟩ := read1_spec hrd1
        have hft : data.get? (p3 - 1) = some ftype ∧ 1 ≤ p3 :=
          skipFF_spec (data.drop p2) b p2 ftype p3 rfl (by simpa [hp2] using hb1)
            (by omega) hskip
        have hp4 : p4 = p3 + 2 := read2be_spec hrd2
        obtain ⟨c4, c5, c6, c7, g4, g5, g6, g7, hh, hww⟩ := read4be2_spec hrd4
        refine .inr ⟨p3 - 1, ftype, c4, c5, c6, c7, hft.1, hsof.1, hsof.2, ?_, ?_, ?_, ?_, ?_⟩
        · have : p3 - 1 + 4 = p4 + 1 := by omega
          rw [this]; exact g4
        · have : p3 - 1 + 5 = p4 + 1 + 1 := by omega
          rw [this]; exact g5
        · have : p3 - 1 + 6 = p4 + 1 + 2 := by omega
          rw [this]; exact g6
        · have : p3 - 1 + 7 = p4 + 1 + 3 := by omega
          rw [this]; exact g7
        · rw [← h, hh, hww]
    · rw [if_neg hsof] at h
      exact ih p4 ((len : Int) - 2) r h

/-! ## Claim theorems -/

/-- Claim C6: for every input byte stream with fewer than 24 bytes
available and every format hint, `get_image_size` fails with the
truncated-header error — it returns the string `"invalid head"` (the
code's `TruncatedHeader` value) rather than dimensions. -/
theorem claim_C6_short_head_fails (fmt : String) (fuel : Nat) (data : List Nat)
    (hshort : data.length < 24) :
    getImageSizeFmt fmt fuel data = some (.strRes "invalid head") := by
  unfold getImageSizeFmt
  rw [if_pos hshort]

/-- Witness for C6 at a concrete 3-byte stream with the `gif` hint. -/
theorem claim_C6_witness :
    ([1, 2, 3] : List Nat).length < 24 ∧
      getImageSizeFmt "gif" 0 [1, 2, 3] = some (.strRes "invalid head") :=
  ⟨by decide, claim_C6_short_head_fails "gif" 0 [1, 2, 3] (by decide)⟩

/-- Claim C7: on a stream of at least 24 bytes with the `png` hint, the
sniffer checks that bytes 4–8 are the magic sequence `0D 0A 1A 0A`
(the code compares their big-endian 32-bit value against `0x0D0A1A0A`,
which for byte values is the same test) and fails — returns `None` —
otherwise; when the check passes it returns the big-endian 32-bit values
at byte offsets 16 and 20 as `(width, height)`. -/
theorem claim_C7_png (fuel : Nat)
    (b0 b1 b2 b3 b4 b5 b6 b7 b8 b9 b10 b11 b12 b13 b14 b15
     b16 b17 b18 b19 b20 b21 b22 b23 : Nat) (rest : List Nat)
    (h4 : b4 < 256) (h5 : b5 < 256) (h6 : b6 < 256) (h7 : b7 < 256) :
    (¬(b4 = 0x0D ∧ b5 = 0x0A ∧ b6 = 0x1A ∧ b7 = 0x0A) →
      getImageSizeFmt "png" fuel
        (b0 :: b1 :: b2 :: b3 :: b4 :: b5 :: b6 :: b7 :: b8 :: b9 :: b10 :: b11 ::
         b12 :: b13 :: b14 :: b15 :: b16 :: b17 :: b18 :: b19 :: b20 :: b21 :: b22 ::
         b23 :: rest) = some .noneRes) ∧
    ((b4 = 0x0D ∧ b5 = 0x0A ∧ b6 = 0x1A ∧ b7 = 0x0A) →
      getImageSizeFmt "png" fuel
        (b0 :: b1 :: b2 :: b3 :: b4 :: b5 :: b6 :: b7 :: b8 :: b9 :: b10 :: b11 ::
         b12 :: b13 :: b14 :: b15 :: b16 :: b17 :: b18 :: b19 :: b20 :: b21 :: b22 ::
         b23 :: rest) =
        some (.dims (be32s b16 b17 b18 b19) (be32s b20 b21 b22 b23))) := by
  have hmagic : be32s b4 b5 b6 b7 = 0x0D0A1A0A ↔
      (b4 = 0x0D ∧ b5 = 0x0A ∧ b6 = 0x1A ∧ b7 = 0x0A) := by
    unfold be32s be32
    split <;> omega
  constructor
  · intro hne
    simp only [getImageSizeFmt, List.length_cons, List.get?, if_true]
    rw [if_pos (fun hc => hne (hmagic.mp hc)), if_neg (by omega)]
  · intro heq
    simp only [getImageSizeFmt, List.length_cons, List.get?, if_true]
    rw [if_neg (not_not_intro (hmagic.mpr heq)), if_neg (by omega)]

/-- Claim C8: with the `jpeg` hint (on a stream long enough to pass the
24-byte head check), a marker-segment scan that reaches end-of-stream
before a Start-Of-Frame marker fails: every terminating run either raises
(`raised` — the code's `NameError`/`TypeError`/`struct.error` crashes on
exhausted reads, the spec's `MalformedJpeg`) or returns dimensions coming
from a genuine Start-Of-Frame marker byte `ft ∈ [0xC0, 0xCF]` found at a
position `p`, after which the segment-length bytes and one precision byte
are skipped and height then width are read as big-endian 16-bit values
(offsets `p+4` and `p+6`).  In particular a scan that hit end-of-stream
can never have produced dimensions. -/
theorem claim_C8_jpeg_scan (fuel : Nat) (data : List Nat) (r : SniffResult)
    (hlen : 24 ≤ data.length)
    (h : getImageSizeFmt "jpeg" fuel data = some r) :
    (∃ e, r = .raised e) ∨
    (∃ p ft c4 c5 c6 c7, data.get? p = some ft ∧ 0xC0 ≤ ft ∧ ft ≤ 0xCF ∧
      data.get? (p + 4) = some c4 ∧ data.get? (p + 5) = some c5 ∧
      data.get? (p + 6) = some c6 ∧ data.get? (p + 7) = some c7 ∧
      r = .dims ((c6 * 256 + c7 : Nat) : Int) ((c4 * 256 + c5 : Nat) : Int)) := by
  unfold getImageSizeFmt at h
  rw [if_neg (by omega), if_neg (by decide), if_neg (by decide), if_pos rfl] at h
  cases hloop : jpegLoop data fuel 0 2 with
  | none => rw [hloop] at h; exact absurd h (by simp)
  | some rr =>
    rcases jpegLoop_cases fuel 0 2 rr hloop with ⟨e, rfl⟩ |
      ⟨p, ft, c4, c5, c6, c7, hp, hl, hu, g4, g5, g6, g7, hok⟩
    · simp only [hloop] at h
      injection h with h
      exact .inl ⟨e, h.symm⟩
    · subst hok
      simp only [hloop] at h
      injection h with h
      exact .inr ⟨p, ft, c4, c5, c6, c7, hp, hl, hu, g4, g5, g6, g7, h.symm⟩

/-- Witness for C8: a 24-byte stream whose SOF0 marker sits at offset 3
scans to `dims 128 64`, matching the big-endian 16-bit reads at offsets
7 and 9. -/
theorem claim_C8_witness :
    (24 ≤ ([0xFF, 0xD8, 0xFF, 0xC0, 0x00, 0x11, 0x08, 0x00, 0x40, 0x00, 0x80,
            0, 0, 0, 0, 0, 0, 0, 0, 0, 0, 0, 0, 0] : List Nat).length) ∧
    getImageSizeFmt "jpeg" 10
        [0xFF, 0xD8, 0xFF, 0xC0, 0x00, 0x11, 0x08, 0x00, 0x40, 0x00, 0x80,
         0, 0, 0, 0, 0, 0, 0, 0, 0, 0, 0, 0, 0] = some (.dims 128 64) ∧
    ((∃ e, (SniffResult.dims 128 64) = .raised e) ∨
      (∃ p ft c4 c5 c6 c7,
        ([0xFF, 0xD8, 0xFF, 0xC0, 0x00, 0x11, 0x08, 0x00, 0x40, 0x00, 0x80,
          0, 0, 0, 0, 0, 0, 0, 0, 0, 0, 0, 0, 0] : List Nat).get? p = some ft ∧
        0xC0 ≤ ft ∧ ft ≤ 0xCF ∧
        ([0xFF, 0xD8, 0xFF, 0xC0, 0x00, 0x11, 0x08, 0x00, 0x40, 0x00, 0x80,
          0, 0, 0, 0, 0, 0, 0, 0, 0, 0, 0, 0, 0] : List Nat).get? (p + 4) = some c4 ∧
        ([0xFF, 0xD8, 0xFF, 0xC0, 0x00, 0x11, 0x08, 0x00, 0x40, 0x00, 0x80,
          0, 0, 0, 0, 0, 0, 0, 0, 0, 0, 0, 0, 0] : List Nat).get? (p + 5) = some c5 ∧
        ([0xFF, 0xD8, 0xFF, 0xC0, 0x00, 0x11, 0x08, 0x00, 0x40, 0x00, 0x80,
          0, 0, 0, 0, 0, 0, 0, 0, 0, 0, 0, 0, 0] : List Nat).get? (p + 6) = some c6 ∧
        ([0xFF, 0xD8, 0xFF, 0xC0, 0x00, 0x11, 0x08, 0x00, 0x40, 0x00, 0x80,
          0, 0, 0, 0, 0, 0, 0, 0, 0, 0, 0, 0, 0] : List Nat).get? (p + 7) = some c7 ∧
        (SniffResult.dims 128 64) =
          .dims ((c6 * 256 + c7 : Nat) : Int) ((c4 * 256 + c5 : Nat) : Int))) :=
  ⟨by decide, by decide,
    claim_C8_jpeg_scan 10
      [0xFF, 0xD8, 0xFF, 0xC0, 0x00, 0x11, 0x08, 0x00, 0x40, 0x00, 0x80,
       0, 0, 0, 0, 0, 0, 0, 0, 0, 0, 0, 0, 0] (.dims 128 64) (by decide) (by decide)⟩

/-- Witness for C7: a valid 100×50 PNG header yields `dims 100 50`, and a
corrupted magic byte yields the `None` failure. -/
theorem claim_C7_witness :
    ((0x89 = 0x0D ∧ 0x50 = 0x0A ∧ 0x4E = 0x1A ∧ 0x47 = 0x0A) → False) ∧
      getImageSizeFmt "png" 0
        [0x89, 0x50, 0x4E, 0x47, 0x0D, 0x0A, 0x1A, 0x0A, 0, 0, 0, 13,
         0x49, 0x48, 0x44, 0x52, 0, 0, 0, 100, 0, 0, 0, 50] =
        some (.dims 100 50) := by
  constructor
  · decide
  · have := (claim_C7_png 0 0x89 0x50 0x4E 0x47 0x0D 0x0A 0x1A 0x0A 0 0 0 13
      0x49 0x48 0x44 0x52 0 0 0 100 0 0 0 50 []
      (by decide) (by decide) (by decide) (by decide)).2 (by decide)
    rw [this]
    decide

/-- Claim C1 counterexample: a fetch that completes with a timeout — a
failure that is not an `HTTPError` — makes the completion callback raise
before `images_loading.remove` and `re_render()` run: the key stays in the
in-flight set and the re-render callback is invoked zero times, refuting
the claim that completion always removes the key and invokes the callback. -/
theorem claim_C1_counterexample :
    load_image (fun _ => NetResult.timeout) 0 "http://e.com/a.png" =
      some (.error .timeoutErr) ∧
    callback ⟨⟨"E", 1, 1⟩, ⟨"L", 1, 1⟩, ""⟩ "http://e.com/a.png" (.error .timeoutErr)
        ⟨[], ["http://e.com/a.png"]⟩ =
      ⟨⟨[], ["http://e.com/a.png"]⟩, 0, true⟩ := by
  exact ⟨rfl, rfl⟩

/-- Claim C1 (amended): when a fetch task completes *successfully or with
an `HTTPError`*, the completion callback removes the key from the in-flight
set and then invokes the re-render callback exactly once (and because an
in-flight key never submits a second task, there is only one completion
per key, even if `resolve()` ran many times while pending); any other
failure makes the callback raise first, leaving the key in the in-flight
set with the re-render callback not invoked. -/
theorem claim_C1_completion (res : Resources) (path : String) (st : FetchState)
    (hin : path ∈ st.images_loading) :
    (∀ img, callback res path (.ok img) st =
      ⟨⟨(path, img) :: st.images_cache, st.images_loading.erase path⟩, 1, false⟩) ∧
    (callback res path (.error .httpError) st =
      ⟨⟨(path, res.base64_404_image) :: st.images_cache,
        st.images_loading.erase path⟩, 1, false⟩) ∧
    (∀ e, e ≠ FetchErr.httpError → callback res path (.error e) st = ⟨st, 0, true⟩) ∧
    (∀ fs fuel, cacheGet st path = none → isRemote path = true →
      get_base64_image fs fuel path res st =
        some (.ok ⟨res.base64_loading_image, st, false⟩)) := by
  refine ⟨?_, ?_, ?_, ?_⟩
  · intro img
    simp [callback, cachePut, hin]
  · simp [callback, cachePut, hin]
  · intro e he
    cases e with
    | httpError => exact absurd rfl he
    | urlError => rfl
    | timeoutErr => rfl
    | valueErr => rfl
    | typeErr => rfl
    | sniffRaised e => rfl
  · intro fs fuel hmiss hrem
    simp [get_base64_image, hmiss, hrem, hin]

/-- Witness for C1 (amended) at a concrete in-flight key: an `HTTPError`
completion caches the 404 placeholder, clears the in-flight entry and
triggers exactly one re-render. -/
theorem claim_C1_witness :
    "http://e.com/a.png" ∈ (FetchState.mk [] ["http://e.com/a.png"]).images_loading ∧
    callback ⟨⟨"E", 1, 1⟩, ⟨"L", 2, 2⟩, ""⟩ "http://e.com/a.png" (.error .httpError)
        ⟨[], ["http://e.com/a.png"]⟩ =
      ⟨⟨[("http://e.com/a.png", ⟨"E", 1, 1⟩)], []⟩, 1, false⟩ := by
  have hin : "http://e.com/a.png" ∈ (FetchState.mk [] ["http://e.com/a.png"]).images_loading := by
    decide
  refine ⟨hin, ?_⟩
  have := (claim_C1_completion ⟨⟨"E", 1, 1⟩, ⟨"L", 2, 2⟩, ""⟩ "http://e.com/a.png"
    ⟨[], ["http://e.com/a.png"]⟩ hin).2.1
  simpa using this

/-- Claim C2 counterexample: a fetch answered with `Content-Type:
text/html` fails with a `ValueError` (not an `HTTPError`), so the callback
raises and the "error" placeholder is *not* stored in the cache — the
cache still has no entry for the key after completion, refuting the claim
that every failure caches the error placeholder. -/
theorem claim_C2_counterexample :
    load_image (fun _ => NetResult.ok [1, 2, 3] "text/html") 0 "http://e.com/x.png" =
      some (.error .valueErr) ∧
    callback ⟨⟨"E", 1, 1⟩, ⟨"L", 1, 1⟩, ""⟩ "http://e.com/x.png" (.error .valueErr)
        ⟨[], ["http://e.com/x.png"]⟩ =
      ⟨⟨[], ["http://e.com/x.png"]⟩, 0, true⟩ ∧
    cacheGet ⟨[], ["http://e.com/x.png"]⟩ "http://e.com/x.png" = none := by
  refine ⟨rfl, rfl, rfl⟩

/-- Claim C2 (amended): on success the fetched image is stored in the
cache under the key, and a failure raising `HTTPError` stores the fixed
"error" (404) placeholder; any other failure (timeout, network error,
non-image content type, sniff failure) stores nothing — the module state
is unchanged.  Once a key is cached, every subsequent `resolve()` returns
the stored value with no new fetch task submitted and no state change. -/
theorem claim_C2_cache_policy (res : Resources) (path : String) (st : FetchState) :
    (∀ img, cacheGet (callback res path (.ok img) st).st path = some img) ∧
    (cacheGet (callback res path (.error .httpError) st).st path =
      some res.base64_404_image) ∧
    (∀ e, e ≠ FetchErr.httpError → (callback res path (.error e) st).st = st) ∧
    (∀ fs fuel img st', cacheGet st' path = some img →
      get_base64_image fs fuel path res st' = some (.ok ⟨img, st', false⟩)) := by
  refine ⟨?_, ?_, ?_, ?_⟩
  · intro img
    by_cases hin : path ∈ st.images_loading <;>
      simp [callback, cachePut, cacheGet, hin, List.lookup]
  · by_cases hin : path ∈ st.images_loading <;>
      simp [callback, cachePut, cacheGet, hin, List.lookup]
  · intro e he
    cases e with
    | httpError => exact absurd rfl he
    | urlError => rfl
    | timeoutErr => rfl
    | valueErr => rfl
    | typeErr => rfl
    | sniffRaised e => rfl
  · intro fs fuel img st' hhit
    simp [get_base64_image, hhit]

/-- Witness for C2 (amended) at a concrete key: a successful completion
stores the fetched image, and a later resolve returns it unchanged. -/
theorem claim_C2_witness :
    cacheGet (callback ⟨⟨"E", 1, 1⟩, ⟨"L", 2, 2⟩, ""⟩ "http://e.com/x.png"
        (.ok ⟨"data:image/png;base64,AA", 5, 6⟩) ⟨[], ["http://e.com/x.png"]⟩).st
      "http://e.com/x.png" = some ⟨"data:image/png;base64,AA", 5, 6⟩ ∧
    FetchErr.timeoutErr ≠ FetchErr.httpError ∧
    (callback ⟨⟨"E", 1, 1⟩, ⟨"L", 2, 2⟩, ""⟩ "http://e.com/x.png"
        (.error .timeoutErr) ⟨[], ["http://e.com/x.png"]⟩).st =
      ⟨[], ["http://e.com/x.png"]⟩ := by
  refine ⟨(claim_C2_cache_policy ⟨⟨"E", 1, 1⟩, ⟨"L", 2, 2⟩, ""⟩ "http://e.com/x.png"
      ⟨[], ["http://e.com/x.png"]⟩).1 _, by decide, ?_⟩
  exact (claim_C2_cache_policy ⟨⟨"E", 1, 1⟩, ⟨"L", 2, 2⟩, ""⟩ "http://e.com/x.png"
      ⟨[], ["http://e.com/x.png"]⟩).2.2.1 .timeoutErr (by decide)

/-- Claim C3: for an uncached remote key, if the key is already in the
in-flight set then `resolve()` returns the loading placeholder with no new
task submitted and no state change; if it is not, exactly one task is
submitted, the key is appended to the in-flight set before the call
returns, and the loading placeholder is returned.  Appending preserves
distinctness of the in-flight keys, so at most one task is outstanding
per key. -/
theorem claim_C3_dedup (fs : String → Option (List Nat)) (fuel : Nat) (path : String)
    (res : Resources) (st : FetchState)
    (hmiss : cacheGet st path = none) (hrem : isRemote path = true) :
    (path ∈ st.images_loading →
      get_base64_image fs fuel path res st =
        some (.ok ⟨res.base64_loading_image, st, false⟩)) ∧
    (path ∉ st.images_loading →
      get_base64_image fs fuel path res st =
        some (.ok ⟨res.base64_loading_image,
                   { st with images_loading := st.images_loading ++ [path] }, true⟩)) ∧
    (st.images_loading.Nodup → path ∉ st.images_loading →
      ({ st with images_loading := st.images_loading ++ [path] } :
        FetchState).images_loading.Nodup) := by
  refine ⟨?_, ?_, ?_⟩
  · intro hin
    simp [get_base64_image, hmiss, hrem, hin]
  · intro hnin
    simp [get_base64_image, hmiss, hrem, hnin]
  · intro hnd hnin
    simp only []
    rw [List.nodup_append]
    exact ⟨hnd, List.nodup_singleton path, by
      intro x hx hx'
      simp only [List.mem_singleton] at hx'
      exact hnin (hx' ▸ hx)⟩

/-- Witness for C3 at a concrete uncached remote key, in both the
in-flight and the fresh case. -/
theorem claim_C3_witness :
    cacheGet ⟨[], []⟩ "http://e.com/a.png" = none ∧
    isRemote "http://e.com/a.png" = true ∧
    get_base64_image (fun _ => none) 0 "http://e.com/a.png" ⟨⟨"E", 1, 1⟩, ⟨"L", 2, 2⟩, ""⟩
        ⟨[], []⟩ =
      some (.ok ⟨⟨"L", 2, 2⟩, ⟨[], ["http://e.com/a.png"]⟩, true⟩) ∧
    get_base64_image (fun _ => none) 0 "http://e.com/a.png" ⟨⟨"E", 1, 1⟩, ⟨"L", 2, 2⟩, ""⟩
        ⟨[], ["http://e.com/a.png"]⟩ =
      some (.ok ⟨⟨"L", 2, 2⟩, ⟨[], ["http://e.com/a.png"]⟩, false⟩) := by
  refine ⟨rfl, by decide, ?_, ?_⟩
  · have := (claim_C3_dedup (fun _ => none) 0 "http://e.com/a.png"
      ⟨⟨"E", 1, 1⟩, ⟨"L", 2, 2⟩, ""⟩ ⟨[], []⟩ rfl (by decide)).2.1 (by decide)
    simpa using this
  · have := (claim_C3_dedup (fun _ => none) 0 "http://e.com/a.png"
      ⟨⟨"E", 1, 1⟩, ⟨"L", 2, 2⟩, ""⟩ ⟨[], ["http://e.com/a.png"]⟩ rfl (by decide)).1
      (by decide)
    simpa using this

/-- Claim C4: a cached key resolves to the stored image immediately, with
no state change and no task submitted; the result does not depend on the
file system at all (no file read happens — the network is not even a
parameter of `resolve`), so repeated calls return the same stored
result. -/
theorem claim_C4_cache_hit (fuel : Nat) (path : String) (res : Resources)
    (st : FetchState) (img : Img) (hhit : cacheGet st path = some img) :
    ∀ fs fs' : String → Option (List Nat),
      get_base64_image fs fuel path res st = some (.ok ⟨img, st, false⟩) ∧
      get_base64_image fs fuel path res st = get_base64_image fs' fuel path res st := by
  have e : ∀ g : String → Option (List Nat),
      get_base64_image g fuel path res st = some (.ok ⟨img, st, false⟩) := by
    intro g
    simp [get_base64_image, hhit]
  exact fun fs fs' => ⟨e fs, (e fs).trans (e fs').symm⟩

/-- Witness for C4 at a concrete cached key, with two file systems that
disagree everywhere. -/
theorem claim_C4_witness :
    cacheGet ⟨[("k", ⟨"D", 3, 4⟩)], []⟩ "k" = some ⟨"D", 3, 4⟩ ∧
    get_base64_image (fun _ => none) 0 "k" ⟨⟨"E", 1, 1⟩, ⟨"L", 2, 2⟩, ""⟩
        ⟨[("k", ⟨"D", 3, 4⟩)], []⟩ =
      some (.ok ⟨⟨"D", 3, 4⟩, ⟨[("k", ⟨"D", 3, 4⟩)], []⟩, false⟩) ∧
    get_base64_image (fun _ => none) 0 "k" ⟨⟨"E", 1, 1⟩, ⟨"L", 2, 2⟩, ""⟩
        ⟨[("k", ⟨"D", 3, 4⟩)], []⟩ =
      get_base64_image (fun _ => some [9]) 0 "k" ⟨⟨"E", 1, 1⟩, ⟨"L", 2, 2⟩, ""⟩
        ⟨[("k", ⟨"D", 3, 4⟩)], []⟩ := by
  have h := claim_C4_cache_hit 0 "k" ⟨⟨"E", 1, 1⟩, ⟨"L", 2, 2⟩, ""⟩
    ⟨[("k", ⟨"D", 3, 4⟩)], []⟩ ⟨"D", 3, 4⟩ (by decide) (fun _ => none) (fun _ => some [9])
  exact ⟨by decide, h.1, h.2⟩

/-- Resolving a remote key never raises: every branch of
`get_base64_image` for a remote path returns a value synchronously. -/
lemma resolve_remote_ok (fs : String → Option (List Nat)) (fuel : Nat) (path : String)
    (res : Resources) (st : FetchState) (hrem : isRemote path = true) :
    ∃ r : ResolveOk, get_base64_image fs fuel path res st = some (.ok r) := by
  cases hc : cacheGet st path with
  | some img => exact ⟨⟨img, st, false⟩, by simp [get_base64_image, hc]⟩
  | none =>
    by_cases hin : path ∈ st.images_loading
    · exact ⟨⟨res.base64_loading_image, st, false⟩,
        by simp [get_base64_image, hc, hrem, hin]⟩
    · exact ⟨⟨res.base64_loading_image,
        { st with images_loading := st.images_loading ++ [path] }, true⟩,
        by simp [get_base64_image, hc, hrem, hin]⟩

/-- The loop body never raises on an already-inline or remote image. -/
lemma processImg_ok (canon : String → String → String) (fs : String → Option (List Nat))
    (fuel : Nat) (res : Resources) (vw : ℚ) (basepath : String) (st : FetchState)
    (src : String)
    (h : pyStartsWith src "data:image/" = true ∨
      isRemote (classifySrc canon basepath src) = true) :
    ∃ out st' sub, processImg canon fs fuel res vw basepath st src =
      some (.ok (out, st', sub)) := by
  by_cases hd : pyStartsWith src "data:image/" = true
  · exact ⟨⟨src, none, none⟩, st, false, by simp [processImg, hd]⟩
  · have hrem : isRemote (classifySrc canon basepath src) = true := h.resolve_left hd
    obtain ⟨r, hr⟩ := resolve_remote_ok fs fuel (classifySrc canon basepath src) res st hrem
    unfold processImg
    rw [if_neg hd]
    cases hres : rescale vw r.img.width r.img.height with
    | none => exact ⟨⟨r.img.data, none, none⟩, r.st, r.submitted, by simp [hr, hres]⟩
    | some wh => exact ⟨⟨r.img.data, some wh.1, some wh.2⟩, r.st, r.submitted,
        by simp [hr, hres]⟩

/-- The image loop completes for every list of inline-or-remote sources,
producing one rewritten element per source. -/
lemma processImgs_ok (canon : String → String → String) (fs : String → Option (List Nat))
    (fuel : Nat) (res : Resources) (vw : ℚ) (basepath : String) :
    ∀ (srcs : List String) (st : FetchState),
      (∀ src ∈ srcs, pyStartsWith src "data:image/" = true ∨
        isRemote (classifySrc canon basepath src) = true) →
      ∃ outs st', processImgs canon fs fuel res vw basepath st srcs =
          some (.ok (outs, st')) ∧ outs.length = srcs.length := by
  intro srcs
  induction srcs with
  | nil => exact fun st _ => ⟨[], st, rfl, rfl⟩
  | cons a rest ih =>
    intro st h
    obtain ⟨out, st1, sub, ha⟩ := processImg_ok canon fs fuel res vw basepath st a
      (h a (by simp))
    obtain ⟨outs, st2, hrest, hlen⟩ := ih st1 (fun s hs => h s (by simp [hs]))
    exact ⟨out :: outs, st2, by simp [processImgs, ha, hrest], by simp [hlen]⟩

/-- Claim C5 counterexample: a document with two images — a missing local
file first, an already-inline image second — aborts the whole render: the
`open` failure propagates out of `markdown2html` and no HTML is produced
for the rest of the document, refuting the claim that no single image's
resolution failure aborts the render. -/
theorem claim_C5_counterexample :
    markdown2html (fun _ => ["missing.png", "data:image/png;base64,AA"])
      (fun _ src => src) (fun _ => none) 0 ⟨⟨"E", 1, 1⟩, ⟨"L", 2, 2⟩, ""⟩ 500 "/base"
      ⟨[], []⟩ "doc" = some (.error .ioErr) := by
  rfl

/-- Claim C5 (amended): a *remote* image's failure never aborts the render
— remote sources resolve synchronously to a placeholder or cached value,
whatever later happens to the fetch — and already-inline images are
skipped, so a document whose images are all inline or remote always
renders completely, one output element per image; but a local image whose
file read or sniff fails raises out of `markdown2html` and aborts the
whole render. -/
theorem claim_C5_remote_never_aborts
    (convert : String → List String) (canon : String → String → String)
    (fs : String → Option (List Nat)) (fuel : Nat) (res : Resources) (vw : ℚ)
    (basepath : String) (st : FetchState) (markdown : String)
    (h : ∀ src ∈ convert markdown,
      pyStartsWith src "data:image/" = true ∨
        isRemote (classifySrc canon basepath src) = true) :
    ∃ outs st', markdown2html convert canon fs fuel res vw basepath st markdown =
        some (.ok (outs, st')) ∧ outs.length = (convert markdown).length :=
  processImgs_ok canon fs fuel res vw basepath (convert markdown) st h

/-- Witness for C5 (amended): a document with one remote and one inline
image renders completely even though the file system has nothing. -/
theorem claim_C5_witness :
    (∀ src ∈ ["http://e.com/a.png", "data:image/png;base64,AA"],
      pyStartsWith src "data:image/" = true ∨
        isRemote (classifySrc (fun _ s => s) "/base" src) = true) ∧
    ∃ outs st',
      markdown2html (fun _ => ["http://e.com/a.png", "data:image/png;base64,AA"])
          (fun _ s => s) (fun _ => none) 0 ⟨⟨"E", 1, 1⟩, ⟨"L", 2, 2⟩, ""⟩ 500 "/base"
          ⟨[], []⟩ "doc" = some (.ok (outs, st')) ∧
        outs.length = (["http://e.com/a.png", "data:image/png;base64,AA"] : List String).length :=
  ⟨by decide,
    claim_C5_remote_never_aborts (fun _ => ["http://e.com/a.png", "data:image/png;base64,AA"])
      (fun _ s => s) (fun _ => none) 0 ⟨⟨"E", 1, 1⟩, ⟨"L", 2, 2⟩, ""⟩ 500 "/base"
      ⟨[], []⟩ "doc" (by decide)⟩

/-- Claim C9: an image wider than the viewport gets `width` set to the
viewport width and `height` set to `height * viewportWidth / width`
(the code computes `viewport_width * (height / width)`, the same rational),
and an image not wider than the viewport gets no explicit attributes; in
particular a 2000×1000 image at viewport 500 yields `(500, 250)` and a
width-300 image at viewport 500 yields none. -/
theorem claim_C9_rescale (vw : ℚ) (w h : Int) :
    ((w : ℚ) > vw → rescale vw w h = some (vw, (h : ℚ) * vw / (w : ℚ))) ∧
    (¬((w : ℚ) > vw) → rescale vw w h = none) ∧
    rescale 500 2000 1000 = some (500, 250) ∧
    rescale 500 300 h = none := by
  refine ⟨?_, ?_, ?_, ?_⟩
  · intro hgt
    unfold rescale
    rw [if_pos hgt]
    have : vw * ((h : ℚ) / (w : ℚ)) = (h : ℚ) * vw / (w : ℚ) := by ring
    rw [this]
  · intro hle
    unfold rescale
    rw [if_neg hle]
  · unfold rescale
    norm_num
  · unfold rescale
    rw [if_neg (by norm_num)]

/-- Witness for C9 at the concrete 2000×1000 image and viewport 500. -/
theorem claim_C9_witness :
    ((2000 : Int) : ℚ) > 500 ∧
      rescale 500 2000 1000 = some (500, (1000 : ℚ) * 500 / 2000) :=
  ⟨by norm_num, (claim_C9_rescale 500 2000 1000).1 (by norm_num)⟩

/-- Claim C10: every `ResolvedImage` the pipeline constructs — by a
completed remote fetch (`load_image` success) or by a local file read in
`get_base64_image` — has inline data of the form
`"data:image/png;base64," ++ base64(bytes)`, regardless of the actual
image format of the bytes (GIF and JPEG content is labeled with the PNG
MIME type). -/
theorem claim_C10_png_prefix :
    (∀ (net : String → NetResult) (fuel : Nat) (url : String) (img : Img),
      load_image net fuel url = some (.ok img) →
      ∃ rest, img.data = pngPrefix ++ rest) ∧
    (∀ (fs : String → Option (List Nat)) (fuel : Nat) (path : String)
        (res : Resources) (st : FetchState) (content : List Nat) (w h : Int),
      fs path = some content → isRemote path = false → cacheGet st path = none →
      get_image_size fuel content path = some (.dims w h) →
      get_base64_image fs fuel path res st =
        some (.ok ⟨⟨pngPrefix ++ b64encode content, w, h⟩,
          cachePut st path ⟨pngPrefix ++ b64encode content, w, h⟩, false⟩)) := by
  constructor
  · intro net fuel url img h
    unfold load_image at h
    split at h
    · exact absurd h (by simp)
    · exact absurd h (by simp)
    · exact absurd h (by simp)
    · split at h
      · exact absurd h (by simp)
      · exact absurd h (by simp)
      · exact absurd h (by simp)
      · exact absurd h (by simp)
      · split at h
        · exact absurd h (by simp)
        · injection h with h
          injection h with h
          subst h
          exact ⟨_, rfl⟩
  · intro fs fuel path res st content w h hfs hrem hmiss hsniff
    simp [get_base64_image, hmiss, hrem, hfs, hsniff]

/-- Witness for C10: a local *GIF* file (valid 100×50 GIF header) is
inlined with the PNG data-URI prefix. -/
theorem claim_C10_witness :
    (fun _ : String => some gifBytes) "/a/x.gif" = some gifBytes ∧
    isRemote "/a/x.gif" = false ∧
    cacheGet ⟨[], []⟩ "/a/x.gif" = none ∧
    get_image_size 0 gifBytes "/a/x.gif" = some (.dims 100 50) ∧
    get_base64_image (fun _ => some gifBytes) 0 "/a/x.gif" ⟨⟨"E", 1, 1⟩, ⟨"L", 2, 2⟩, ""⟩
        ⟨[], []⟩ =
      some (.ok ⟨⟨pngPrefix ++ b64encode gifBytes, 100, 50⟩,
        cachePut ⟨[], []⟩ "/a/x.gif" ⟨pngPrefix ++ b64encode gifBytes, 100, 50⟩, false⟩) :=
  ⟨rfl, by decide, rfl, by decide,
    claim_C10_png_prefix.2 (fun _ => some gifBytes) 0 "/a/x.gif"
      ⟨⟨"E", 1, 1⟩, ⟨"L", 2, 2⟩, ""⟩ ⟨[], []⟩ gifBytes 100 50 rfl (by decide) rfl (by decide)⟩

end MLP
